import Mathlib

/-!
Verification of the form-submission handler in src/api/submit.js.

The handler is a linear chain of gates (method, honeypot, email shape,
blocked domain, CAPTCHA, soft uniqueness check, insert) ending in one
store write.  The two external calls — the CAPTCHA verifier and the
persistent store — are supplied as oracles: the CAPTCHA verdict the
verifier would return, and the results the store would give to the
uniqueness query and to the insert.  A separate stateful wrapper
models the store itself as a list of records with a unique
user_email column, following the interface the specification gives it.
-/

namespace Form

/-- A JS value, as far as the handler inspects request bodies:
undefined, null, primitives, or an object with named fields. -/
inductive JsValue where
  | undefined
  | null
  | bool (b : Bool)
  | num (q : Rat)
  | str (s : String)
  | obj (fields : List (String × JsValue))

/-- Property access v.f in JS: a field lookup on an object, undefined on
everything else (primitives box to objects without these fields). -/
def jsGet : JsValue → String → JsValue
  | .obj fields, name =>
      match fields.lookup name with
      | some v => v
      | none => .undefined
  | _, _ => .undefined

/-- Narrows a JS field value to the shape the handler model uses: a string
stays itself; any other value acts as an absent field in every check the
handler performs on honeypot and formData. -/
def toOptStr : JsValue → Option String
  | .str s => some s
  | _ => none

/-- The record the handler inserts (the formData object).  Its user_email
field is the only field any gate inspects; the remaining fields are opaque
payload kept abstract in rest. -/
structure FormData where
  user_email : Option String
  rest : List (String × String)
deriving DecidableEq

/-- Reads a JS value as a formData object: an object keeps its user_email
field; on any non-object value, formData?.user_email is undefined. -/
def toFormData : JsValue → Option FormData
  | .obj fields => some ⟨toOptStr (jsGet (.obj fields) "user_email"), []⟩
  | _ => none

/-- The request after destructuring (submit.js lines 22-23): method,
honeypot field, the opaque CAPTCHA token, and the formData object.
honeypot and user_email are carried as Option String: absent/undefined
or a string, the only shapes the gates distinguish. -/
structure SubmitRequest where
  method : String
  honeypot : Option String
  captchaToken : String
  formData : Option FormData

/-- formData?.user_email (submit.js line 23): undefined when formData is
absent, else its user_email field. -/
def userEmailOf (req : SubmitRequest) : Option String :=
  match req.formData with
  | none => none
  | some fd => fd.user_email

/-- The JSON body the CAPTCHA verifier returns (submit.js line 55):
success as its truthiness, score and action possibly absent. -/
structure CaptchaData where
  success : Bool
  score : Option Rat
  action : Option String

/-- A store error as surfaced to the handler: the Postgres error code and
the store-internal detail text. -/
structure DbError where
  code : String
  detail : String
deriving DecidableEq

/-- Oracle for the two store calls of one request: the row the soft
uniqueness query would return (maybeSingle, submit.js lines 66-70), and
the error the insert would report (none on success, lines 77-79). -/
structure StoreOracle where
  existing : Option FormData
  insertError : Option DbError

/-- A response: HTTP status plus JSON body. -/
inductive RespBody where
  | success
  | error (msg : String)
deriving DecidableEq

structure Response where
  status : Nat
  body : RespBody
deriving DecidableEq

/-- Which external operations a run executed: the CAPTCHA fetch, the soft
uniqueness query, and the insert. -/
structure Effects where
  captchaCalled : Bool
  queryExecuted : Bool
  insertExecuted : Bool
deriving DecidableEq

def noEffects : Effects := ⟨false, false, false⟩

/-- Blocked disposable domains, submit.js lines 10-13. -/
def BLOCKED_DOMAINS : List String :=
  [ "mailinator.com", "tempmail.com", "yopmail.com", "guerrillamail.com",
    "10minutemail.com", "sharklasers.com", "throwawaymail.com", "getnada.com" ]

/-- Blocked TLD suffixes, submit.js line 14. -/
def BLOCKED_TLDS : List String :=
  [ ".xyz", ".icu", ".top", ".tk", ".ml", ".ga", ".cf", ".gq", ".ru", ".cn" ]

def methodNotAllowedMsg : String := "Method not allowed"
def invalidEmailMsg : String := "Invalid email address."
def professionalEmailMsg : String := "Please use a professional email address."
def securityFailedMsg : String := "Security verification failed. Please try again."

/-- The 409 message of the soft uniqueness check, submit.js line 72.  Note
the right single quotation mark U+2019 in the source literal. -/
def softCheckConflictMsg : String :=
  "We’ve already received a submission from this email address."

/-- The 409 message of the insert-time constraint violation, submit.js
line 85 — a second literal in the source, byte-identical to line 72. -/
def insertConflictMsg : String :=
  "We’ve already received a submission from this email address."

def internalErrorMsg : String := "Internal server error"

/-- Modelled from the spec: section 6 of the interface specification
writes the 409 message with an ASCII apostrophe.  The source literal
(submit.js lines 72 and 85) uses U+2019 instead. -/
def specConflictMsg : String :=
  "We\u0027ve already received a submission from this email address."

/-- JS String.prototype.split with a single-character separator, on the
character sequence of the string: the maximal runs between occurrences
of the separator, in order, with empty runs kept (so the result always
has one more part than there are separator occurrences). -/
def splitOnChar (sep : Char) : List Char → List (List Char)
  | [] => [[]]
  | c :: cs =>
      match splitOnChar sep cs with
      | [] => [[c]]
      | h :: t => if c = sep then [] :: h :: t else (c :: h) :: t

/-- JS s.includes for a single-character search string: the character
occurs in s.  Models user_email.includes at submit.js line 35. -/
def jsIncludes (s : String) (c : Char) : Bool :=
  s.data.contains c

/-- JS s.endsWith(t): t is a suffix of the character sequence of s.
Models emailDomain.endsWith at submit.js line 41. -/
def jsEndsWith (s t : String) : Bool :=
  t.data.isSuffixOf s.data

/-- The honeypot gate condition honeypot and honeypot.length > 0
(submit.js line 27): for a string field both conjuncts are length > 0;
an absent field is falsy. -/
def honeypotHit : Option String → Bool
  | none => false
  | some s => decide (0 < s.length)

/-- The email gate condition !user_email or !user_email.includes of the
at-sign (submit.js line 35): absent fields and the empty string are
falsy. -/
def emailInvalid : Option String → Bool
  | none => true
  | some e => decide (e.length = 0) || !(jsIncludes e '@')

/-- JS String.prototype.toLowerCase, character by character (the domains
and suffixes involved are ASCII, where the two coincide). -/
def jsToLower (s : String) : String :=
  String.mk (s.data.map Char.toLower)

/-- user_email.split at the at-sign, index 1, lower-cased (submit.js
line 39): the part between the first and second at-sign; none when the
email has no at-sign (the handler computes it only after the includes
check passed). -/
def emailDomain (e : String) : Option String :=
  match splitOnChar '@' e.data with
  | _ :: d :: _ => some (jsToLower (String.mk d))
  | _ => none

/-- isDisposable or isSuspiciousTLD, submit.js lines 40-41. -/
def domainBlocked (d : String) : Bool :=
  BLOCKED_DOMAINS.contains d || BLOCKED_TLDS.any (fun tld => jsEndsWith d tld)

/-- captchaData.score < 0.5 (submit.js line 58): comparing an absent
score against a number is false in JS. -/
def scoreBelow (score : Option Rat) (t : Rat) : Bool :=
  match score with
  | none => false
  | some q => decide (q < t)

/-- The threshold 0.5 of submit.js line 58 (exact in binary floating
point, hence exactly the rational one half). -/
def scoreThreshold : Rat := mkRat 1 2

/-- The CAPTCHA rejection test (submit.js line 58): not success, or
score < 0.5, or action not strictly equal to submit. -/
def captchaRejected (c : CaptchaData) : Bool :=
  !c.success || scoreBelow c.score scoreThreshold || (c.action != some "submit")

/-- Steps 5 and 6 of the handler (submit.js lines 64-93): the soft
uniqueness check, then the insert; a 23505 insert error maps to the
conflict response, any other insert error is thrown and caught as the
generic 500 (lines 90-98). -/
def storeStage (store : StoreOracle) : Response × Effects :=
  match store.existing with
  | some _ => (⟨409, .error softCheckConflictMsg⟩, ⟨true, true, false⟩)
  | none =>
      match store.insertError with
      | some err =>
          if err.code = "23505" then
            (⟨409, .error insertConflictMsg⟩, ⟨true, true, true⟩)
          else
            (⟨500, .error internalErrorMsg⟩, ⟨true, true, true⟩)
      | none => (⟨200, .success⟩, ⟨true, true, true⟩)

/-- Step 4 of the handler (submit.js lines 50-61): the CAPTCHA fetch is
performed, then the verdict is tested; on rejection the 403 response is
returned, otherwise the store stage runs. -/
def captchaStage (c : CaptchaData) (store : StoreOracle) : Response × Effects :=
  if captchaRejected c then
    (⟨403, .error securityFailedMsg⟩, ⟨true, false, false⟩)
  else storeStage store

/-- The handler of src/api/submit.js (lines 17-99) over a destructured
request, with the CAPTCHA verdict and the store answers as oracles.
The two 500 fallback arms of the matches are unreachable: the first
needs emailInvalid none = false, the second an email that passed the
includes check yet splits into fewer than two parts (in JS that arm
would be a TypeError caught by the surrounding catch, hence the 500). -/
def handlerCore (req : SubmitRequest) (captchaData : CaptchaData)
    (store : StoreOracle) : Response × Effects :=
  if req.method != "POST" then
    (⟨405, .error methodNotAllowedMsg⟩, noEffects)
  else if honeypotHit req.honeypot then
    (⟨200, .success⟩, noEffects)
  else if emailInvalid (userEmailOf req) then
    (⟨400, .error invalidEmailMsg⟩, noEffects)
  else
    match userEmailOf req with
    | none => (⟨500, .error internalErrorMsg⟩, noEffects)
    | some e =>
        match emailDomain e with
        | none => (⟨500, .error internalErrorMsg⟩, noEffects)
        | some d =>
            if domainBlocked d then
              (⟨400, .error professionalEmailMsg⟩, noEffects)
            else captchaStage captchaData store

/-- The outcome of a JS-level run: an uncaught exception, or a response
together with the external operations executed. -/
inductive Outcome where
  | threw
  | returned (resp : Response) (eff : Effects)
deriving DecidableEq

/-- The handler at the JS level: the method check (line 18) precedes the
destructuring of req.body (line 22), which throws a TypeError exactly
when the body is undefined or null; any other value destructures (JS
boxes primitives), and the gates run on the extracted fields. -/
def handlerJs (method : String) (body : JsValue) (captchaData : CaptchaData)
    (store : StoreOracle) : Outcome :=
  if method != "POST" then
    .returned ⟨405, .error methodNotAllowedMsg⟩ noEffects
  else
    match body with
    | .undefined => .threw
    | .null => .threw
    | b =>
        let req : SubmitRequest :=
          { method := method
            honeypot := toOptStr (jsGet b "honeypot")
            captchaToken := ""
            formData := toFormData (jsGet b "formData") }
        let out := handlerCore req captchaData store
        .returned out.1 out.2

/-- Modelled from the spec: the persistent store is an external service,
not part of this repository.  Section 6 gives it read capability — fetch
at most one record by exact user_email match, tolerating zero results —
modelled as the first record whose user_email equals the key. -/
def storeQuery (db : List FormData) (email : String) : Option FormData :=
  db.find? (fun r => decide (r.user_email = some email))

/-- Modelled from the spec: the unique-constraint-violated error the
store surfaces distinguishably, with the Postgres unique_violation
code 23505 (submit.js line 84). -/
def uniqueViolation : DbError :=
  ⟨ "23505", "duplicate key value violates unique constraint" ⟩

/-- Modelled from the spec: write capability of the store — insert one
record into the collection, with the user_email column under a
uniqueness constraint: inserting a record whose user_email is already
present surfaces the unique-violation error, otherwise the record is
appended. -/
def storeInsert (db : List FormData) (fd : FormData) :
    Except DbError (List FormData) :=
  match fd.user_email with
  | some e =>
      if db.any (fun r => decide (r.user_email = some e)) then
        .error uniqueViolation
      else
        .ok (db ++ [fd])
  | none => .ok (db ++ [fd])

/-- The handler run against the modelled store: the soft-check query and
the insert are answered from the store state, and the store is updated
exactly when the run executed the insert and it succeeded. -/
def handlerWithStore (req : SubmitRequest) (c : CaptchaData)
    (db : List FormData) : Response × List FormData :=
  let qres : Option FormData :=
    match userEmailOf req with
    | none => none
    | some e => storeQuery db e
  let ins : Except DbError (List FormData) :=
    match req.formData with
    | none => .ok db
    | some fd => storeInsert db fd
  let store : StoreOracle :=
    { existing := qres
      insertError :=
        match ins with
        | .error err => some err
        | .ok _ => none }
  let out := handlerCore req c store
  ( out.1
  , if out.2.insertExecuted then
      match ins with
      | .ok newDb => newDb
      | .error _ => db
    else db )

/-- No two records in the store share a present user_email. -/
def uniqueEmails (db : List FormData) : Prop :=
  db.Pairwise (fun a b => ∀ e : String, a.user_email = some e → b.user_email ≠ some e)

/-! ## General lemmas about the embedding -/

theorem length_pos_of_ne_empty (s : String) (h : s ≠ "") : 0 < s.length := by
  cases s with
  | mk data =>
    cases data with
    | nil => exact absurd rfl h
    | cons c cs => simp [String.length]

theorem emailInvalid_false_of_includes (e : String) (h : jsIncludes e '@' = true) :
    emailInvalid (some e) = false := by
  simp only [emailInvalid, h, Bool.not_true, Bool.or_false, decide_eq_false_iff_not]
  intro hlen
  cases e with
  | mk data =>
    cases data with
    | nil => simp [jsIncludes] at h
    | cons c cs => simp [String.length] at hlen

/-- A request that passed the method, honeypot, email-shape and domain
gates runs the CAPTCHA stage. -/
theorem handlerCore_at_captcha (req : SubmitRequest) (c : CaptchaData) (store : StoreOracle)
    (e d : String)
    (hm : req.method = "POST") (hh : honeypotHit req.honeypot = false)
    (he : userEmailOf req = some e) (hv : emailInvalid (some e) = false)
    (hd : emailDomain e = some d) (hb : domainBlocked d = false) :
    handlerCore req c store = captchaStage c store := by
  simp [handlerCore, hm, hh, he, hv, hd, hb]

/-- The store stage never produces the 403 security response. -/
theorem storeStage_not_security (store : StoreOracle) :
    (storeStage store).1 ≠ ⟨403, .error securityFailedMsg⟩ := by
  rcases store with ⟨ex, ie⟩
  cases ex with
  | some fd => simp [storeStage]
  | none =>
    cases ie with
    | none => simp [storeStage]
    | some err =>
      by_cases h : err.code = "23505" <;> simp [storeStage, h]

/-- Once past the domain gate, the professional-email 400 can no longer
be produced. -/
theorem captchaStage_not_professional (c : CaptchaData) (store : StoreOracle) :
    (captchaStage c store).1 ≠ ⟨400, .error professionalEmailMsg⟩ := by
  unfold captchaStage
  by_cases h : captchaRejected c = true
  · simp [h]
  · simp only [Bool.not_eq_true] at h
    simp only [h, Bool.false_eq_true, if_false]
    rcases store with ⟨ex, ie⟩
    cases ex with
    | some fd => simp [storeStage]
    | none =>
      cases ie with
      | none => simp [storeStage]
      | some err =>
        by_cases h2 : err.code = "23505" <;> simp [storeStage, h2]

/-- The rejection test of submit.js line 58, for a verdict carrying a
score, spelt as a proposition: it fails exactly when success, threshold
and action do not all hold. -/
theorem captchaRejected_iff (b : Bool) (q : Rat) (a : Option String) :
    captchaRejected ⟨b, some q, a⟩ = true ↔
      ¬(b = true ∧ scoreThreshold ≤ q ∧ a = some "submit") := by
  cases b
  · simp [captchaRejected, scoreBelow, ← not_lt]
  · simp [captchaRejected, scoreBelow, ← not_lt]
    tauto

/-- The blocked-domain test spelt as membership: exact match in the
disposable list, or one of the TLD suffixes ends the domain. -/
theorem domainBlocked_iff (d : String) :
    domainBlocked d = true ↔
      d ∈ BLOCKED_DOMAINS ∨ ∃ tld ∈ BLOCKED_TLDS, jsEndsWith d tld = true := by
  simp [domainBlocked, List.any_eq_true, List.contains, List.elem_eq_mem]

/-- Every response the handler can produce (the insert-time 409 appears
under the soft-check message, the two literals being equal). -/
theorem handlerCore_cases (req : SubmitRequest) (c : CaptchaData) (store : StoreOracle) :
    (handlerCore req c store).1 ∈
      ([⟨405, .error methodNotAllowedMsg⟩, ⟨200, .success⟩,
        ⟨400, .error invalidEmailMsg⟩, ⟨500, .error internalErrorMsg⟩,
        ⟨400, .error professionalEmailMsg⟩, ⟨403, .error securityFailedMsg⟩,
        ⟨409, .error softCheckConflictMsg⟩] : List Response) := by
  unfold handlerCore captchaStage storeStage
  (repeat' split) <;> simp [insertConflictMsg, softCheckConflictMsg]

theorem find_append_singleton {α : Type} (p : α → Bool) (l : List α) (a : α)
    (h : ∀ x ∈ l, ¬ p x = true) (ha : p a = true) :
    (l ++ [a]).find? p = some a := by
  induction l with
  | nil => simp [List.find?, ha]
  | cons x xs ih =>
    have hx : ¬ p x = true := h x (List.mem_cons_self x xs)
    simp only [List.cons_append, List.find?]
    rw [Bool.eq_false_iff.mpr hx]
    exact ih (fun y hy => h y (List.mem_cons_of_mem x hy))

theorem storeQuery_none_forall (db : List FormData) (e : String)
    (hq : storeQuery db e = none) :
    ∀ r ∈ db, r.user_email ≠ some e := by
  intro r hr
  have := List.find?_eq_none.mp hq r hr
  simpa using this

theorem any_eq_false_of_query_none (db : List FormData) (e : String)
    (hq : storeQuery db e = none) :
    db.any (fun r => decide (r.user_email = some e)) = false := by
  have h := storeQuery_none_forall db e hq
  rw [Bool.eq_false_iff]
  intro hany
  rcases List.any_eq_true.mp hany with ⟨r, hr, hpr⟩
  exact h r hr (of_decide_eq_true hpr)

/-! ## The claims -/

/-- Claim C1: every POST request whose honeypot field is a non-empty
string gets the 200 success response, and neither the uniqueness query
nor the insert is executed, regardless of the CAPTCHA verdict, the
store answers and every other field. -/
theorem honeypot_silent_success (req : SubmitRequest) (c : CaptchaData) (store : StoreOracle)
    (s : String) (hm : req.method = "POST") (hh : req.honeypot = some s) (hs : s ≠ "") :
    handlerCore req c store = (⟨200, .success⟩, noEffects) := by
  have hhit : honeypotHit req.honeypot = true := by
    rw [hh]
    simp [honeypotHit]
    exact length_pos_of_ne_empty s hs
  simp [handlerCore, hm, hhit]

theorem honeypot_silent_success_witness :
    handlerCore ⟨"POST", some "bot", "", some ⟨some "user@mailinator.com", []⟩⟩
        ⟨false, none, none⟩ ⟨none, some ⟨"XX000", "store exploded"⟩⟩ =
      (⟨200, .success⟩, noEffects) :=
  honeypot_silent_success _ _ _ "bot" rfl rfl (by decide)

/-- Claim C2: for a request that reached the CAPTCHA gate and a verdict
carrying a score, the handler produces the 403 security response exactly
when not all of success, score at least one half, and action submit
hold; equivalently the gate accepts exactly when all three hold.  The
threshold is reached at exactly one half, so 0.5 passes and 0.499
fails, and a wrong action fails even with success and full score. -/
theorem captcha_gate_accepts_iff (req : SubmitRequest) (store : StoreOracle)
    (b : Bool) (q : Rat) (a : Option String) (e d : String)
    (hm : req.method = "POST") (hh : honeypotHit req.honeypot = false)
    (he : userEmailOf req = some e) (hv : emailInvalid (some e) = false)
    (hd : emailDomain e = some d) (hb : domainBlocked d = false) :
    ((handlerCore req ⟨b, some q, a⟩ store).1 = ⟨403, .error securityFailedMsg⟩ ↔
      ¬(b = true ∧ scoreThreshold ≤ q ∧ a = some "submit")) := by
  rw [handlerCore_at_captcha req ⟨b, some q, a⟩ store e d hm hh he hv hd hb,
    ← captchaRejected_iff b q a]
  constructor
  · intro hresp
    by_cases hc : captchaRejected ⟨b, some q, a⟩ = true
    · exact hc
    · exfalso
      simp only [Bool.not_eq_true] at hc
      simp only [captchaStage, hc, Bool.false_eq_true, if_false] at hresp
      exact storeStage_not_security store hresp
  · intro hc
    simp [captchaStage, hc]

theorem captcha_gate_accepts_iff_witness :
    ((handlerCore ⟨"POST", none, "tok", some ⟨some "user@b.com", []⟩⟩
        ⟨true, some 1, some "other"⟩ ⟨none, none⟩).1 =
      ⟨403, .error securityFailedMsg⟩ ↔
      ¬(true = true ∧ scoreThreshold ≤ 1 ∧ some "other" = some "submit")) :=
  captcha_gate_accepts_iff _ _ true 1 (some "other") "user@b.com" "b.com"
    rfl rfl rfl (by decide) (by decide) (by decide)

/-- Claim C3: when the store reports the uniqueness-violation code 23505
at insert time, the handler answers 409 with the insert-time conflict
message, and that message is character for character the message of the
soft pre-check conflict — a caller cannot tell the two apart. -/
theorem insert_conflict_same_message (req : SubmitRequest) (c : CaptchaData)
    (store : StoreOracle) (e d : String) (err : DbError)
    (hm : req.method = "POST") (hh : honeypotHit req.honeypot = false)
    (he : userEmailOf req = some e) (hv : emailInvalid (some e) = false)
    (hd : emailDomain e = some d) (hb : domainBlocked d = false)
    (hc : captchaRejected c = false)
    (hex : store.existing = none) (hins : store.insertError = some err)
    (hcode : err.code = "23505") :
    (handlerCore req c store).1 = ⟨409, .error insertConflictMsg⟩ ∧
      insertConflictMsg = softCheckConflictMsg := by
  refine ⟨?_, rfl⟩
  rw [handlerCore_at_captcha req c store e d hm hh he hv hd hb]
  simp [captchaStage, hc, storeStage, hex, hins, hcode]

theorem insert_conflict_same_message_witness :
    (handlerCore ⟨"POST", none, "tok", some ⟨some "user@b.com", []⟩⟩
        ⟨true, some 1, some "submit"⟩ ⟨none, some ⟨"23505", "duplicate key"⟩⟩).1 =
      ⟨409, .error insertConflictMsg⟩ ∧ insertConflictMsg = softCheckConflictMsg :=
  insert_conflict_same_message _ _ _ "user@b.com" "b.com" ⟨"23505", "duplicate key"⟩
    rfl rfl rfl (by decide) (by decide) (by decide) (by decide) rfl rfl rfl

/-- Claim C4: against the modelled store, a valid request whose email is
not yet present yields 200 and appends the record, the identical request
run next yields 409 with the conflict message and leaves the store
unchanged, and the store never holds two records with the same present
user_email. -/
theorem sequential_duplicate_conflict (req : SubmitRequest) (c : CaptchaData)
    (db : List FormData) (fd : FormData) (e d : String)
    (hm : req.method = "POST") (hh : honeypotHit req.honeypot = false)
    (hfd : req.formData = some fd) (hfe : fd.user_email = some e)
    (hv : emailInvalid (some e) = false) (hd : emailDomain e = some d)
    (hb : domainBlocked d = false) (hc : captchaRejected c = false)
    (hq : storeQuery db e = none) (hu : uniqueEmails db) :
    handlerWithStore req c db = (⟨200, .success⟩, db ++ [fd]) ∧
      handlerWithStore req c (db ++ [fd]) =
        (⟨409, .error softCheckConflictMsg⟩, db ++ [fd]) ∧
      uniqueEmails (db ++ [fd]) := by
  have he : userEmailOf req = some e := by simp [userEmailOf, hfd, hfe]
  have hcore : ∀ store : StoreOracle, handlerCore req c store = captchaStage c store :=
    fun store => handlerCore_at_captcha req c store e d hm hh he hv hd hb
  have hany : db.any (fun r => decide (r.user_email = some e)) = false :=
    any_eq_false_of_query_none db e hq
  have hins1 : storeInsert db fd = .ok (db ++ [fd]) := by
    simp [storeInsert, hfe, hany]
  have hq2 : storeQuery (db ++ [fd]) e = some fd := by
    refine find_append_singleton _ db fd ?_ ?_
    · intro r hr
      simpa using storeQuery_none_forall db e hq r hr
    · simp [hfe]
  have hins2 : storeInsert (db ++ [fd]) fd = .error uniqueViolation := by
    have : (db ++ [fd]).any (fun r => decide (r.user_email = some e)) = true :=
      List.any_eq_true.mpr ⟨fd, by simp, by simp [hfe]⟩
    simp [storeInsert, hfe, this]
  refine ⟨?_, ?_, ?_⟩
  · simp [handlerWithStore, he, hq, hfd, hins1, hcore, captchaStage, hc, storeStage]
  · simp [handlerWithStore, he, hq2, hfd, hins2, hcore, captchaStage, hc, storeStage]
  · have hne : ∀ r ∈ db, r.user_email ≠ some e := storeQuery_none_forall db e hq
    refine List.pairwise_append.mpr ⟨hu, List.pairwise_singleton _ _, ?_⟩
    intro a ha b hb0
    have hbfd : b = fd := by simpa using hb0
    subst hbfd
    intro e0 hae0
    rw [hfe]
    intro heq
    have : e0 = e := by injection heq.symm
    subst this
    exact hne a ha hae0

theorem sequential_duplicate_conflict_witness :
    handlerWithStore ⟨"POST", none, "tok", some ⟨some "user@b.com", []⟩⟩
        ⟨true, some 1, some "submit"⟩ [] =
      (⟨200, .success⟩, [] ++ [⟨some "user@b.com", []⟩]) ∧
      handlerWithStore ⟨"POST", none, "tok", some ⟨some "user@b.com", []⟩⟩
          ⟨true, some 1, some "submit"⟩ ([] ++ [⟨some "user@b.com", []⟩]) =
        (⟨409, .error softCheckConflictMsg⟩, [] ++ [⟨some "user@b.com", []⟩]) ∧
      uniqueEmails ([] ++ [⟨some "user@b.com", []⟩]) :=
  sequential_duplicate_conflict _ _ [] ⟨some "user@b.com", []⟩ "user@b.com" "b.com"
    rfl rfl rfl rfl (by decide) (by decide) (by decide) (by decide) rfl
    (List.Pairwise.nil)

/-- Claim C5: for an email containing an at-sign, where d is the
lower-cased part after the first at-sign, the handler answers the
professional-email 400 exactly when d is an exact member of the
disposable-domain list or ends with one of the blocked TLD suffixes;
a superstring of a suffix that is not itself a suffix (such as
example.xyzz) is not rejected by this gate. -/
theorem blocked_domain_gate_iff (req : SubmitRequest) (c : CaptchaData) (store : StoreOracle)
    (e d : String)
    (hm : req.method = "POST") (hh : honeypotHit req.honeypot = false)
    (he : userEmailOf req = some e) (hAt : jsIncludes e '@' = true)
    (hd : emailDomain e = some d) :
    ((handlerCore req c store).1 = ⟨400, .error professionalEmailMsg⟩ ↔
      (d ∈ BLOCKED_DOMAINS ∨ ∃ tld ∈ BLOCKED_TLDS, jsEndsWith d tld = true)) := by
  have hv : emailInvalid (some e) = false := emailInvalid_false_of_includes e hAt
  rw [← domainBlocked_iff]
  by_cases hb : domainBlocked d = true
  · have hfire : handlerCore req c store = (⟨400, .error professionalEmailMsg⟩, noEffects) := by
      simp [handlerCore, hm, hh, he, hv, hd, hb]
    simp [hfire, hb]
  · simp only [Bool.not_eq_true] at hb
    rw [handlerCore_at_captcha req c store e d hm hh he hv hd hb]
    simp only [hb, Bool.false_eq_true, iff_false]
    exact captchaStage_not_professional c store

theorem blocked_domain_gate_iff_witness :
    (((handlerCore ⟨"POST", none, "tok", some ⟨some "user@example.xyzz", []⟩⟩
        ⟨true, some 1, some "submit"⟩ ⟨none, none⟩).1 =
      ⟨400, .error professionalEmailMsg⟩ ↔
      ("example.xyzz" ∈ BLOCKED_DOMAINS ∨
        ∃ tld ∈ BLOCKED_TLDS, jsEndsWith "example.xyzz" tld = true)) ∧
      domainBlocked "example.xyzz" = false) :=
  ⟨blocked_domain_gate_iff _ _ _ "user@example.xyzz" "example.xyzz" rfl rfl rfl
    (by decide) (by decide), by decide⟩

/-- Claim C6: an insert failure whose code is not 23505 yields 500 with
exactly the constant internal-error body; the store error detail is
universally quantified and never reaches the response. -/
theorem insert_error_redacted (req : SubmitRequest) (c : CaptchaData)
    (store : StoreOracle) (e d code detail : String)
    (hm : req.method = "POST") (hh : honeypotHit req.honeypot = false)
    (he : userEmailOf req = some e) (hv : emailInvalid (some e) = false)
    (hd : emailDomain e = some d) (hb : domainBlocked d = false)
    (hc : captchaRejected c = false)
    (hex : store.existing = none) (hins : store.insertError = some ⟨code, detail⟩)
    (hcode : code ≠ "23505") :
    (handlerCore req c store).1 = ⟨500, .error internalErrorMsg⟩ := by
  rw [handlerCore_at_captcha req c store e d hm hh he hv hd hb]
  simp [captchaStage, hc, storeStage, hex, hins, hcode]

theorem insert_error_redacted_witness :
    (handlerCore ⟨"POST", none, "tok", some ⟨some "user@b.com", []⟩⟩
        ⟨true, some 1, some "submit"⟩
        ⟨none, some ⟨"XX000", "secret internal failure detail"⟩⟩).1 =
      ⟨500, .error internalErrorMsg⟩ :=
  insert_error_redacted _ _ _ "user@b.com" "b.com" "XX000" "secret internal failure detail"
    rfl rfl rfl (by decide) (by decide) (by decide) (by decide) rfl rfl (by decide)

/-- Claim C7: a POST with empty (or absent) honeypot whose user_email is
absent or lacks an at-sign gets the invalid-email 400, with no CAPTCHA
call and no store operation. -/
theorem invalid_email_short_circuit (req : SubmitRequest) (c : CaptchaData) (store : StoreOracle)
    (hm : req.method = "POST")
    (hh : req.honeypot = none ∨ req.honeypot = some "")
    (hbad : userEmailOf req = none ∨
      ∃ e, userEmailOf req = some e ∧ jsIncludes e '@' = false) :
    handlerCore req c store = (⟨400, .error invalidEmailMsg⟩, noEffects) := by
  have hh2 : honeypotHit req.honeypot = false := by
    rcases hh with h | h <;> rw [h] <;> decide
  have hinv : emailInvalid (userEmailOf req) = true := by
    rcases hbad with h | ⟨e, he, hni⟩
    · rw [h]; rfl
    · rw [he]; simp [emailInvalid, hni]
  simp [handlerCore, hm, hh2, hinv]

theorem invalid_email_short_circuit_witness :
    handlerCore ⟨"POST", none, "tok", some ⟨some "no-at-sign", []⟩⟩
        ⟨true, some 1, some "submit"⟩ ⟨none, none⟩ =
      (⟨400, .error invalidEmailMsg⟩, noEffects) :=
  invalid_email_short_circuit _ _ _ rfl (Or.inl rfl)
    (Or.inr ⟨"no-at-sign", rfl, by decide⟩)

/-- Claim C8, counterexample: at a concrete request the 409 body carries
the source literal with the right single quotation mark U+2019, which is
not the ASCII-apostrophe string written in the interface specification. -/
theorem conflict_message_differs_from_spec :
    (handlerCore ⟨"POST", none, "tok", some ⟨some "user@c.org", []⟩⟩
          ⟨true, some 1, some "submit"⟩ ⟨some ⟨some "user@c.org", []⟩, none⟩).1 =
        ⟨409, .error softCheckConflictMsg⟩ ∧
      softCheckConflictMsg ≠ specConflictMsg := by
  constructor
  · decide
  · decide

/-- Claim C8 as amended: every 409 response of the handler — from the
soft pre-check or from the insert-time constraint violation — has body
exactly the conflict message as written in the source (with U+2019). -/
theorem conflict_body_exact (req : SubmitRequest) (c : CaptchaData) (store : StoreOracle)
    (h : (handlerCore req c store).1.status = 409) :
    (handlerCore req c store).1.body = .error softCheckConflictMsg := by
  have hmem := handlerCore_cases req c store
  simp only [List.mem_cons, List.not_mem_nil, or_false] at hmem
  rcases hmem with h1 | h1 | h1 | h1 | h1 | h1 | h1 <;> rw [h1] at h ⊢ <;> simp_all

theorem conflict_body_exact_witness :
    (handlerCore ⟨"POST", none, "tok", some ⟨some "user@c.org", []⟩⟩
          ⟨true, some 1, some "submit"⟩
          ⟨some ⟨some "user@c.org", []⟩, none⟩).1.status = 409 ∧
      (handlerCore ⟨"POST", none, "tok", some ⟨some "user@c.org", []⟩⟩
          ⟨true, some 1, some "submit"⟩
          ⟨some ⟨some "user@c.org", []⟩, none⟩).1.body = .error softCheckConflictMsg :=
  ⟨by decide, conflict_body_exact _ _ _ (by decide)⟩

/-- Claim C9: a verdict with success, action submit and no score field is
not rejected at the CAPTCHA gate — the comparison of an absent score
against the threshold is false, so the handler never answers the 403
security response for it. -/
theorem missing_score_passes (req : SubmitRequest) (store : StoreOracle) (e d : String)
    (hm : req.method = "POST") (hh : honeypotHit req.honeypot = false)
    (he : userEmailOf req = some e) (hv : emailInvalid (some e) = false)
    (hd : emailDomain e = some d) (hb : domainBlocked d = false) :
    (handlerCore req ⟨true, none, some "submit"⟩ store).1 ≠
      ⟨403, .error securityFailedMsg⟩ := by
  rw [handlerCore_at_captcha req ⟨true, none, some "submit"⟩ store e d hm hh he hv hd hb]
  have hc : captchaRejected ⟨true, none, some "submit"⟩ = false := by decide
  simpa [captchaStage, hc] using storeStage_not_security store

theorem missing_score_passes_witness :
    (handlerCore ⟨"POST", none, "tok", some ⟨some "user@b.com", []⟩⟩
        ⟨true, none, some "submit"⟩ ⟨none, none⟩).1 ≠
      ⟨403, .error securityFailedMsg⟩ :=
  missing_score_passes _ _ "user@b.com" "b.com" rfl rfl rfl (by decide) (by decide)
    (by decide)

/-- Claim C10, counterexample: a POST whose body is the string hello —
not an object — does not throw at destructuring (JS boxes primitives):
the handler returns one of the specified responses, the invalid-email
400. -/
theorem string_body_does_not_throw :
    handlerJs "POST" (.str "hello") ⟨true, some 1, some "submit"⟩ ⟨none, none⟩ =
      .returned ⟨400, .error invalidEmailMsg⟩ noEffects := by
  decide

/-- Claim C10 as amended: a POST whose body is undefined or null throws
at the destructuring, which precedes the try block, so the run ends in
an uncaught exception and none of the specified responses — in
particular not the 500 of the handler's own catch. -/
theorem nullish_body_throws (method : String) (body : JsValue) (c : CaptchaData)
    (store : StoreOracle) (hm : method = "POST")
    (hb : body = .undefined ∨ body = .null) :
    handlerJs method body c store = .threw := by
  rcases hb with h | h <;> rw [hm, h] <;> rfl

theorem nullish_body_throws_witness :
    handlerJs "POST" .undefined ⟨true, some 1, some "submit"⟩ ⟨none, none⟩ = .threw :=
  nullish_body_throws "POST" .undefined _ _ rfl (Or.inl rfl)

end Form
